import Mathlib

/-!
Shallow embedding of the BOT-FACEBOOK repository (src/main.py and
src/scanner.py) and verification of its specification claims.

The SQLite listings table is modelled as a list of rows; CURRENT_TIMESTAMP
is modelled as an explicit now parameter of type Nat. Columns that no
embedded operation ever reads or writes (the autoincrement id, views,
messages) are omitted from the row type. Outcomes of external UI actions
(Selenium calls) are supplied as oracle parameters.
-/

/-- A row of the listings table of main.py (schema at main.py lines 36-51). -/
structure Listing where
  item_id : String
  url : String
  title : String
  price : String
  status : String
  is_public : Bool
  is_visible : Bool
  created_at : Nat
  updated_at : Nat
deriving DecidableEq

/-- The listings table state. -/
abbrev Store := List Listing

/-- First row whose item_id matches, as SQLite row lookup by the UNIQUE key. -/
def lookupListing (s : Store) (iid : String) : Option Listing :=
  s.find? (fun r => r.item_id == iid)

/-- The updates dict passed to update_listing_in_db (main.py lines 188-217):
only the fields that process_listings actually supplies are modelled, each
optional, mirroring the SET clause built from the dict keys. -/
structure UpdateFields where
  status : Option String
  is_public : Option Bool
  is_visible : Option Bool
deriving DecidableEq

/-- Effect of the SET clause of main.py lines 198-202 on one matching row:
supplied fields overwrite, updated_at is set to CURRENT_TIMESTAMP, all other
columns (in particular created_at) are untouched. -/
def applyUpdates (u : UpdateFields) (r : Listing) (now : Nat) : Listing :=
  { r with
    status := u.status.getD r.status
    is_public := u.is_public.getD r.is_public
    is_visible := u.is_visible.getD r.is_visible
    updated_at := now }

/-- main.py update_listing_in_db (lines 188-217): UPDATE listings SET ...
WHERE item_id = ?. The SQL UPDATE rewrites every matching row and raises no
error when no row matches; the function returns True on this path. -/
def update_listing_in_db (s : Store) (iid : String) (u : UpdateFields)
    (now : Nat) : Store × Bool :=
  (s.map (fun r => if r.item_id == iid then applyUpdates u r now else r), true)

/-- main.py add_listing_to_db (lines 219-250): INSERT OR IGNORE INTO listings
(item_id, url, title, price, status) VALUES (..., 'pending'). When a row with
the same item_id exists the insert is ignored and the table is unchanged;
otherwise a fresh pending row is appended with both timestamps defaulted. -/
def add_listing_to_db (s : Store) (iid url title price : String)
    (now : Nat) : Store :=
  if s.any (fun r => r.item_id == iid) then s
  else s ++ [⟨iid, url, title, price, "pending", false, false, now, now⟩]

/-- The WHERE clause of get_listings_from_db (main.py line 176):
status = 'pending' OR is_public = 0. -/
def pendingFilter (r : Listing) : Bool :=
  r.status == "pending" || !r.is_public

/-- The ORDER BY created_at DESC ordering of main.py line 177. -/
def createdDesc (a b : Listing) : Prop :=
  b.created_at ≤ a.created_at

instance : DecidableRel createdDesc := fun _ _ => Nat.decLe _ _

instance : IsTotal Listing createdDesc :=
  ⟨fun a b => Nat.le_total b.created_at a.created_at⟩

instance : IsTrans Listing createdDesc :=
  ⟨fun _ _ _ h1 h2 => Nat.le_trans h2 h1⟩

/-- main.py get_listings_from_db (lines 167-186), success path: SELECT ...
WHERE status = 'pending' OR is_public = 0 ORDER BY created_at DESC. -/
def get_listings_from_db (s : Store) : List Listing :=
  List.insertionSort createdDesc (s.filter pendingFilter)

/-- The full behaviour of get_listings_from_db including its except branch
(main.py lines 184-186): a database fault (modelled as none) is swallowed
and the empty list is returned. -/
def get_listings_from_db_result : Option Store → List Listing
  | none => []
  | some s => get_listings_from_db s

/-- The guard at main.py line 312: marketplace re-enumeration runs exactly
when the database read produced no listings. -/
def marketplace_fallback_triggered (dbr : Option Store) : Bool :=
  (get_listings_from_db_result dbr).isEmpty

/-- The stats record built by get_stats (main.py lines 424-430). -/
structure BotStats where
  total : Nat
  public : Nat
  visible : Nat
  pending : Nat
  success_rate : ℚ
deriving DecidableEq

/-- main.py get_stats (lines 404-442): four COUNT queries and
success_rate = (public / total * 100) if total > 0 else 0. -/
def get_stats (s : Store) : BotStats :=
  { total := s.length
    public := (s.filter (fun r => r.is_public)).length
    visible := (s.filter (fun r => r.is_visible)).length
    pending := (s.filter (fun r => r.status == "pending")).length
    success_rate :=
      if 0 < s.length then
        ((s.filter (fun r => r.is_public)).length : ℚ) / (s.length : ℚ) * 100
      else 0 }

/-- The updates dict written on success (main.py lines 331-335). -/
def processedUpdate : UpdateFields := ⟨some "processed", some true, some true⟩

/-- The updates dict written on failure (main.py lines 339-343). -/
def failedUpdate : UpdateFields := ⟨some "failed", some false, some false⟩

/-- One iteration of the processing loop of main.py lines 322-346: the
make_listing_public outcome for the item decides which terminal update is
written; the write trace records the item and the status written. -/
def processOneListing (succ : String → Bool) (now : Nat)
    (acc : Store × List (String × String)) (r : Listing) :
    Store × List (String × String) :=
  if succ r.item_id then
    ((update_listing_in_db acc.1 r.item_id processedUpdate now).1,
      acc.2 ++ [(r.item_id, "processed")])
  else
    ((update_listing_in_db acc.1 r.item_id failedUpdate now).1,
      acc.2 ++ [(r.item_id, "failed")])

/-- main.py process_listings (lines 303-356): iterate the rows returned by
get_listings_from_db and write one terminal status per row. The outcome of
make_listing_public for each item is the oracle succ. Returns the final
table state and the trace of status writes. -/
def process_listings (s : Store) (succ : String → Bool) (now : Nat) :
    Store × List (String × String) :=
  (get_listings_from_db s).foldl (processOneListing succ now) (s, [])

/-! ### Run orchestration traces (main.py run_bot, scanner.py run_ai_bot) -/

/-- Observable steps of one run of either orchestrator. -/
inductive RunEvent where
  | acquire
  | configure
  | login
  | processing
  | stats
  | close
deriving DecidableEq

/-- main.py initialize_driver (lines 112-131) and scanner.py
initialize_driver (lines 889-906): webdriver.Chrome is the session
acquisition; the subsequent execute_script and WebDriverWait setup is the
configuration step. Any raise is caught and False is returned; self.driver
is already set once acquisition succeeded. Returns
(events, driver attribute set, reported success). -/
def driver_init (acquireOk configOk : Bool) : List RunEvent × Bool × Bool :=
  if !acquireOk then ([], false, false)
  else if !configOk then ([RunEvent.acquire], true, false)
  else ([RunEvent.acquire, RunEvent.configure], true, true)

/-- The close method (main.py lines 471-475, scanner.py lines 971-975):
quits the driver only when the driver attribute is set. -/
def close_driver_events (driverSet : Bool) : List RunEvent :=
  if driverSet then [RunEvent.close] else []

/-- main.py run_bot (lines 444-469): early return when initialize_driver
reports failure (no close), otherwise a try block running login, processing
and stats, an except swallowing any body exception, and a finally that
always calls close. loginOk is the login result; bodyOk = false models an
exception raised during the body after login. -/
def run_bot (acquireOk configOk loginOk bodyOk : Bool) : List RunEvent :=
  let init := driver_init acquireOk configOk
  if !init.2.2 then init.1
  else
    let body :=
      if !loginOk then [RunEvent.login]
      else if !bodyOk then [RunEvent.login, RunEvent.processing]
      else [RunEvent.login, RunEvent.processing, RunEvent.stats]
    init.1 ++ body ++ close_driver_events init.2.1

/-- scanner.py run_ai_bot (lines 908-932): same shape as run_bot with
intelligent_login, intelligent_listing_processing and generate_ai_report in
the try block and close in the finally. -/
def run_ai_bot (acquireOk configOk loginOk bodyOk : Bool) : List RunEvent :=
  let init := driver_init acquireOk configOk
  if !init.2.2 then init.1
  else
    let body :=
      if !loginOk then [RunEvent.login]
      else if !bodyOk then [RunEvent.login, RunEvent.processing]
      else [RunEvent.login, RunEvent.processing, RunEvent.stats]
    init.1 ++ body ++ close_driver_events init.2.1

/-- Number of session-close invocations in a run trace. -/
def closeCount (t : List RunEvent) : Nat :=
  (t.filter (fun e => e == RunEvent.close)).length

/-- Whether the browser session was actually acquired during the run. -/
def sessionAcquired (t : List RunEvent) : Bool :=
  t.any (fun e => e == RunEvent.acquire)

/-! ### scanner.py login verification and retry loop -/

/-- The success count accumulated over the four verification methods of
verify_login_success (scanner.py lines 457-467): check_url_for_success,
check_homepage_elements, check_profile_presence, check_marketplace_access. -/
def indicatorCount (u h p m : Bool) : Nat :=
  (if u then 1 else 0) + (if h then 1 else 0) +
  (if p then 1 else 0) + (if m then 1 else 0)

/-- scanner.py verify_login_success (lines 453-477): confidence is the
fraction of the four methods reporting success and the verdict is
confidence >= 0.6. -/
def verify_login_success (u h p m : Bool) : Bool :=
  decide ((indicatorCount u h p m : ℚ) / 4 ≥ 6 / 10)

/-- One entry of the retry_strategies table. -/
structure RetryPolicy where
  max_attempts : Nat
  backoff : Nat
deriving DecidableEq

/-- The retry_strategies table of scanner.py lines 212-216. -/
def retry_strategies (opClass : String) : Option RetryPolicy :=
  if opClass == "login" then some ⟨3, 10⟩
  else if opClass == "navigation" then some ⟨5, 5⟩
  else if opClass == "listing" then some ⟨2, 3⟩
  else none

/-- Outcome of one iteration of the intelligent_login attempt loop
(scanner.py lines 362-439), as observed by the control flow: the attempt
succeeded, verification failed and the AI decision was relogin (with its
wait_time), verification failed with any other decision, or an exception
was raised during the attempt. -/
inductive AttemptOutcome where
  | success
  | verifyFailRelogin (wait : Nat)
  | verifyFailOther
  | raised
deriving DecidableEq

/-- Observable steps of the login retry loop: one operation invocation, or
one backoff sleep of the given number of seconds. -/
inductive LoginEvent where
  | attempt
  | sleep (secs : Nat)
deriving DecidableEq

def isAttempt : LoginEvent → Bool
  | LoginEvent.attempt => true
  | LoginEvent.sleep _ => false

/-- Number of operation invocations in a login trace. -/
def attemptCount (t : List LoginEvent) : Nat :=
  (t.filter isAttempt).length

/-- True when every sleep in the trace is followed by a later attempt,
that is, the loop never sleeps after its final attempt. -/
def sleepsFollowed : List LoginEvent → Bool
  | [] => true
  | LoginEvent.attempt :: rest => sleepsFollowed rest
  | LoginEvent.sleep _ :: rest => rest.any isAttempt && sleepsFollowed rest

/-- The for-loop of intelligent_login (scanner.py lines 362-439). idx is
the 0-based attempt index, rem the iterations left. Success returns True
at once; a verification failure retries (after sleeping wait_time) only
when the decision is relogin and attempts remain, else breaks; an exception
sleeps backoff * (attempt + 1) only when attempts remain. Falling out of
the loop returns False. -/
def login_loop (oracle : Nat → AttemptOutcome) (backoff : Nat) :
    Nat → Nat → List LoginEvent × Bool
  | _, 0 => ([], false)
  | idx, rem + 1 =>
    match oracle idx with
    | AttemptOutcome.success => ([LoginEvent.attempt], true)
    | AttemptOutcome.verifyFailRelogin w =>
      if 0 < rem then
        let next := login_loop oracle backoff (idx + 1) rem
        (LoginEvent.attempt :: LoginEvent.sleep w :: next.1, next.2)
      else ([LoginEvent.attempt], false)
    | AttemptOutcome.verifyFailOther => ([LoginEvent.attempt], false)
    | AttemptOutcome.raised =>
      if 0 < rem then
        let next := login_loop oracle backoff (idx + 1) rem
        (LoginEvent.attempt :: LoginEvent.sleep (backoff * (idx + 1)) :: next.1,
          next.2)
      else ([LoginEvent.attempt], false)

/-- scanner.py intelligent_login (lines 358-443): runs the attempt loop
under the login policy of the retry_strategies table. -/
def intelligent_login (oracle : Nat → AttemptOutcome) : List LoginEvent × Bool :=
  match retry_strategies "login" with
  | some pol => login_loop oracle pol.backoff 0 pol.max_attempts
  | none => ([], false)

/-! ### scanner.py transition strategies -/

/-- The three transition strategies tried by make_listing_public_intelligent
(scanner.py lines 746-750), in source order. -/
inductive StrategyId where
  | directEdit
  | audienceSettings
  | quickSave
deriving DecidableEq

/-- The strategies list of scanner.py lines 746-750:
[strategy_direct_edit, strategy_audience_settings, strategy_quick_save]. -/
def strategies_order : List StrategyId :=
  [StrategyId.directEdit, StrategyId.audienceSettings, StrategyId.quickSave]

/-- Outcomes of the three strategy bodies (scanner.py lines 776-852) for the
listing currently open, supplied as an oracle. -/
structure StrategyOutcomes where
  direct_edit : Bool
  audience_settings : Bool
  quick_save : Bool
deriving DecidableEq

def strategyResult (o : StrategyOutcomes) : StrategyId → Bool
  | StrategyId.directEdit => o.direct_edit
  | StrategyId.audienceSettings => o.audience_settings
  | StrategyId.quickSave => o.quick_save

/-- The strategy loop of scanner.py lines 752-756: invoke each strategy in
order, stop at the first success. Returns the overall success flag and the
list of strategies actually invoked. -/
def try_strategies (o : StrategyOutcomes) : List StrategyId → Bool × List StrategyId
  | [] => (false, [])
  | sid :: rest =>
    if strategyResult o sid then (true, [sid])
    else
      let next := try_strategies o rest
      (next.1, sid :: next.2)

/-- scanner.py make_listing_public_intelligent (lines 731-774), strategy
phase: try the fixed strategies list, first success wins. -/
def make_listing_public_intelligent (o : StrategyOutcomes) : Bool × List StrategyId :=
  try_strategies o strategies_order

/-! ### scanner.py AI database -/

/-- A row of the ai_listings table of scanner.py (schema at lines 234-249).
The autoincrement id is omitted; the JSON blob is kept as a string. -/
structure AiListing where
  item_id : String
  url : String
  title : String
  category : String
  price : String
  ai_analysis : String
  status : String
  confidence_score : ℚ
  processing_strategy : String
  created_at : Nat
  updated_at : Nat
deriving DecidableEq

def lookupAi (s : List AiListing) (iid : String) : Option AiListing :=
  s.find? (fun r => r.item_id == iid)

/-- scanner.py save_listing_to_ai_db (lines 656-681): INSERT OR REPLACE.
On an item_id conflict SQLite deletes the conflicting row and inserts the
new one, so unlisted columns fall back to their schema defaults: status
becomes 'pending' and created_at/updated_at become CURRENT_TIMESTAMP. -/
def save_listing_to_ai_db (s : List AiListing)
    (iid url title category price aiAnalysis : String) (conf : ℚ)
    (now : Nat) : List AiListing :=
  s.filter (fun r => !(r.item_id == iid)) ++
    [⟨iid, url, title, category, price, aiAnalysis, "pending", conf, "auto",
      now, now⟩]

/-- scanner.py update_listing_status (lines 854-869): UPDATE ai_listings SET
status, confidence_score, updated_at WHERE item_id = ?; affects zero rows
without error when the item_id is absent. -/
def update_listing_status (s : List AiListing) (iid status : String)
    (conf : ℚ) (now : Nat) : List AiListing :=
  s.map (fun r =>
    if r.item_id == iid then
      { r with status := status, confidence_score := conf, updated_at := now }
    else r)

/-- The counts and derived rate of generate_ai_report (scanner.py lines
934-969): total rows, rows with status processed, and
success_rate = (processed / total * 100) if total > 0 else 0. -/
structure AiReport where
  total : Nat
  processed : Nat
  success_rate : ℚ
deriving DecidableEq

/-- scanner.py generate_ai_report (lines 934-969), the statistics part. -/
def generate_ai_report (s : List AiListing) : AiReport :=
  { total := s.length
    processed := (s.filter (fun r => r.status == "processed")).length
    success_rate :=
      if 0 < s.length then
        ((s.filter (fun r => r.status == "processed")).length : ℚ) /
          (s.length : ℚ) * 100
      else 0 }

/-- Error type of the status update as the specification describes it. -/
inductive StoreError where
  | notFound
deriving DecidableEq

/-- Definition following the words of the specification, for comparison with
update_listing_in_db: updateStatus(item_id, status, fields) performs an
atomic partial update and fails with NotFoundError if item_id is absent. -/
def update_status_spec (s : Store) (iid : String) (u : UpdateFields)
    (now : Nat) : Except StoreError Store :=
  if s.any (fun r => r.item_id == iid) then
    Except.ok (update_listing_in_db s iid u now).1
  else Except.error StoreError.notFound

/-! ## Helper lemmas -/

/-- Bounds for the percentage pattern (count / total * 100) if total > 0 else 0. -/
theorem pct_bounds (k n : Nat) (hk : k ≤ n) :
    0 ≤ (if 0 < n then (k : ℚ) / (n : ℚ) * 100 else 0) ∧
    (if 0 < n then (k : ℚ) / (n : ℚ) * 100 else 0) ≤ 100 := by
  by_cases h : 0 < n
  · have hn : (0 : ℚ) < (n : ℚ) := by exact_mod_cast h
    have h1 : (k : ℚ) / (n : ℚ) ≤ 1 := (div_le_one hn).mpr (by exact_mod_cast hk)
    have h0 : (0 : ℚ) ≤ (k : ℚ) / (n : ℚ) := by positivity
    constructor
    · simp only [if_pos h]; positivity
    · simp only [if_pos h]
      calc (k : ℚ) / (n : ℚ) * 100 ≤ 1 * 100 :=
            mul_le_mul_of_nonneg_right h1 (by norm_num)
        _ = 100 := by norm_num
  · simp [h]

/-- On the 16 concrete indicator vectors, the 0.6-fraction verdict of
verify_login_success coincides with requiring at least 3 of 4 indicators. -/
theorem verify_login_success_eq_threshold (u h p m : Bool) :
    verify_login_success u h p m = decide (3 ≤ indicatorCount u h p m) := by
  cases u <;> cases h <;> cases p <;> cases m <;>
    simp only [verify_login_success] <;>
    exact decide_eq_decide.mpr (by norm_num [indicatorCount])

theorem attemptCount_cons_attempt (t : List LoginEvent) :
    attemptCount (LoginEvent.attempt :: t) = attemptCount t + 1 := by
  simp [attemptCount, List.filter_cons, isAttempt]

theorem attemptCount_cons_sleep (w : Nat) (t : List LoginEvent) :
    attemptCount (LoginEvent.sleep w :: t) = attemptCount t := by
  simp [attemptCount, List.filter_cons, isAttempt]

/-- Any non-degenerate run of the login loop performs at least one attempt. -/
theorem login_loop_emits_attempt (o : Nat → AttemptOutcome) (b idx rem : Nat)
    (h : 0 < rem) : (login_loop o b idx rem).1.any isAttempt = true := by
  cases rem with
  | zero => exact absurd h (by omega)
  | succ r =>
    cases ho : o idx <;> simp only [login_loop, ho] <;> (try split) <;>
      simp [List.any_cons, isAttempt]

/-- Core bound for the login retry loop: at most rem operation invocations,
and every backoff sleep is followed by a later attempt. -/
theorem login_loop_spec (o : Nat → AttemptOutcome) (b : Nat) :
    ∀ rem idx, attemptCount (login_loop o b idx rem).1 ≤ rem ∧
      sleepsFollowed (login_loop o b idx rem).1 = true := by
  intro rem
  induction rem with
  | zero => intro idx; simp [login_loop, attemptCount, sleepsFollowed]
  | succ r ih =>
    intro idx
    cases ho : o idx
    case success =>
      simp [login_loop, ho, attemptCount, List.filter, sleepsFollowed, isAttempt]
    case verifyFailRelogin w =>
      by_cases hr : 0 < r
      · have hnext := ih (idx + 1)
        have hat := login_loop_emits_attempt o b (idx + 1) r hr
        simp only [login_loop, ho, if_pos hr]
        refine ⟨?_, ?_⟩
        · rw [attemptCount_cons_attempt, attemptCount_cons_sleep]
          omega
        · simp [sleepsFollowed, hat, hnext.2]
      · have hr0 : r = 0 := by omega
        subst hr0
        simp [login_loop, ho, attemptCount, List.filter, sleepsFollowed, isAttempt]
    case verifyFailOther =>
      simp [login_loop, ho, attemptCount, List.filter, sleepsFollowed, isAttempt]
    case raised =>
      by_cases hr : 0 < r
      · have hnext := ih (idx + 1)
        have hat := login_loop_emits_attempt o b (idx + 1) r hr
        simp only [login_loop, ho, if_pos hr]
        refine ⟨?_, ?_⟩
        · rw [attemptCount_cons_attempt, attemptCount_cons_sleep]
          omega
        · simp [sleepsFollowed, hat, hnext.2]
      · have hr0 : r = 0 := by omega
        subst hr0
        simp [login_loop, ho, attemptCount, List.filter, sleepsFollowed, isAttempt]

/-! ## Claim theorems -/

/-- C2 counterexample. The claim states that whenever the run aborts on a
failure after the driver session was acquired, the session close is invoked
exactly once. In the run where webdriver.Chrome succeeds but the following
configuration step inside initialize_driver raises, initialize_driver
reports failure, run_bot returns before its try/finally block, and close is
invoked zero times although the session was acquired. -/
theorem c2_counterexample :
    sessionAcquired (run_bot true false true true) = true ∧
    closeCount (run_bot true false true true) = 0 := by
  decide

/-- C2, amended: on every run in which initialize_driver reports success,
the driver session close is invoked exactly once on every exit path (login
failure, an exception in the body, or normal completion), in both run_bot
and run_ai_bot. -/
theorem c2_close_invoked_once_after_init_success :
    (∀ loginOk bodyOk : Bool,
      closeCount (run_bot true true loginOk bodyOk) = 1) ∧
    (∀ loginOk bodyOk : Bool,
      closeCount (run_ai_bot true true loginOk bodyOk) = 1) := by
  exact ⟨by decide, by decide⟩

/-- C2 witness: the normal-completion run closes the session exactly once. -/
theorem c2_witness : closeCount (run_bot true true true true) = 1 :=
  c2_close_invoked_once_after_init_success.1 true true

/-- C3: login verification in verify_login_success is multi-signal. It
evaluates four independent indicators and reports success exactly when the
agreeing fraction is at least 0.6; on [true,true,false,false] (fraction
0.5) it reports failure, on [true,true,true,false] (fraction 0.75) it
reports success, and one agreeing indicator out of four is never enough. -/
theorem c3_multi_signal_login_verification :
    verify_login_success true true false false = false ∧
    verify_login_success true true true false = true ∧
    (∀ u h p m : Bool,
      (verify_login_success u h p m = true ↔
        (6 / 10 : ℚ) ≤ (indicatorCount u h p m : ℚ) / 4)) ∧
    (∀ u h p m : Bool,
      indicatorCount u h p m = 1 → verify_login_success u h p m = false) := by
  refine ⟨?_, ?_, ?_, ?_⟩
  · simp only [verify_login_success]
    exact decide_eq_false (by norm_num [indicatorCount])
  · simp only [verify_login_success]
    exact decide_eq_true (by norm_num [indicatorCount])
  · intro u h p m
    simp only [verify_login_success, ge_iff_le, decide_eq_true_eq]
  · intro u h p m hc
    rw [verify_login_success_eq_threshold, hc]
    rfl

/-- C3 witness: a single agreeing indicator is rejected. -/
theorem c3_witness : verify_login_success true false false false = false :=
  c3_multi_signal_login_verification.2.2.2 true false false false (by decide)

/-- C5 counterexample. The claim states the success rate equals public
divided by total and lies in [0,1]. With two listings of which one is
public, get_stats returns success_rate 50 (a percentage), which is neither
public/total = 1/2 nor within [0,1]. -/
theorem c5_counterexample :
    (get_stats [⟨"a", "u", "t", "p", "processed", true, true, 1, 1⟩,
        ⟨"b", "u", "t", "p", "failed", false, false, 2, 2⟩]).total = 2 ∧
    (get_stats [⟨"a", "u", "t", "p", "processed", true, true, 1, 1⟩,
        ⟨"b", "u", "t", "p", "failed", false, false, 2, 2⟩]).public = 1 ∧
    (get_stats [⟨"a", "u", "t", "p", "processed", true, true, 1, 1⟩,
        ⟨"b", "u", "t", "p", "failed", false, false, 2, 2⟩]).success_rate = 50 ∧
    ¬((get_stats [⟨"a", "u", "t", "p", "processed", true, true, 1, 1⟩,
        ⟨"b", "u", "t", "p", "failed", false, false, 2, 2⟩]).success_rate ≤ 1) := by
  refine ⟨rfl, rfl, ?_, ?_⟩ <;> norm_num [get_stats]

/-- C5, amended: the success rate equals public divided by total times 100,
lies in [0,100], and is 0 when the store is empty (total = 0 causes no
division fault); likewise for the processed rate of generate_ai_report. -/
theorem c5_success_rate_bounds :
    (∀ s : Store, 0 ≤ (get_stats s).success_rate ∧
      (get_stats s).success_rate ≤ 100) ∧
    (∀ s : Store, (get_stats s).total = 0 → (get_stats s).success_rate = 0) ∧
    (∀ s : List AiListing, 0 ≤ (generate_ai_report s).success_rate ∧
      (generate_ai_report s).success_rate ≤ 100) ∧
    (∀ s : List AiListing, (generate_ai_report s).total = 0 →
      (generate_ai_report s).success_rate = 0) := by
  refine ⟨?_, ?_, ?_, ?_⟩
  · intro s
    simpa [get_stats] using
      pct_bounds (s.filter (fun r => r.is_public)).length s.length
        (List.length_filter_le _ _)
  · intro s h
    have hlen : s.length = 0 := h
    simp [get_stats, hlen]
  · intro s
    simpa [generate_ai_report] using
      pct_bounds (s.filter (fun r => r.status == "processed")).length s.length
        (List.length_filter_le _ _)
  · intro s h
    have hlen : s.length = 0 := h
    simp [generate_ai_report, hlen]

/-- C5 witness: the empty store yields success rate 0. -/
theorem c5_witness : (get_stats []).success_rate = 0 :=
  c5_success_rate_bounds.2.1 [] rfl

/-- C6: the login retry loop of intelligent_login invokes the login
operation at most max_attempts times, where the retry_strategies table
assigns the login class max_attempts 3 and backoff 10; and every backoff
sleep in the trace is followed by a later attempt, so the loop never
sleeps after its final attempt. -/
theorem c6_retry_bound_and_no_final_sleep :
    (∀ oracle : Nat → AttemptOutcome,
      attemptCount (intelligent_login oracle).1 ≤ 3 ∧
      sleepsFollowed (intelligent_login oracle).1 = true) ∧
    retry_strategies "login" = some ⟨3, 10⟩ := by
  refine ⟨?_, rfl⟩
  intro oracle
  have h : intelligent_login oracle = login_loop oracle 10 0 3 := rfl
  rw [h]
  exact login_loop_spec oracle 10 3 0

/-- C6 witness: with every attempt raising, the loop stays within 3 attempts. -/
theorem c6_witness :
    attemptCount (intelligent_login (fun _ => AttemptOutcome.raised)).1 ≤ 3 :=
  (c6_retry_bound_and_no_final_sleep.1 (fun _ => AttemptOutcome.raised)).1

/-- C9: make_listing_public_intelligent tries the fixed ordered sequence of
three distinct strategies; the first success stops the loop (the remaining
strategies are skipped), and the overall outcome is success exactly when
some strategy succeeded. -/
theorem c9_strategy_sequence_first_success_wins :
    strategies_order.Nodup ∧
    (∀ de as qs : Bool,
      (make_listing_public_intelligent ⟨de, as, qs⟩).1 = (de || as || qs) ∧
      (make_listing_public_intelligent ⟨de, as, qs⟩).2 =
        (if de then [StrategyId.directEdit]
         else if as then [StrategyId.directEdit, StrategyId.audienceSettings]
         else strategies_order)) := by
  exact ⟨by decide, by decide⟩

/-- C9 witness: with only the second strategy succeeding, the third is
skipped and the outcome is success. -/
theorem c9_witness :
    (make_listing_public_intelligent ⟨false, true, false⟩).1 =
      (false || true || false) :=
  (c9_strategy_sequence_first_success_wins.2 false true false).1

/-- C10: the pending-listings read never raises; a database error yields
the empty list, which is exactly what an empty store yields, so the call
site in process_listings cannot distinguish the two and triggers
marketplace re-enumeration on a database fault. -/
theorem c10_db_error_returns_empty :
    get_listings_from_db_result none = [] ∧
    (∀ s : Store, get_listings_from_db s = [] →
      get_listings_from_db_result (some s) = get_listings_from_db_result none) ∧
    marketplace_fallback_triggered none = true := by
  refine ⟨rfl, ?_, rfl⟩
  intro s h
  simp [get_listings_from_db_result, h]

/-- C10 witness: the empty store is indistinguishable from a database error. -/
theorem c10_witness :
    get_listings_from_db_result (some []) = get_listings_from_db_result none :=
  c10_db_error_returns_empty.2.1 [] rfl

/-- Composing the item_id key test with the per-row update function of
update_listing_in_db gives back the key test: the update never changes a
row's item_id. -/
theorem updFn_comp_key (iid key : String) (u : UpdateFields) (now : Nat) :
    ((fun x : Listing => x.item_id == key) ∘
      (fun r : Listing => if r.item_id == iid then applyUpdates u r now else r)) =
      fun r : Listing => r.item_id == key := by
  funext r
  simp only [Function.comp]
  split <;> rfl

/-- Looking up the updated key after update_listing_in_db yields the old
row with the updates applied. -/
theorem lookup_update_self (s : Store) (iid : String) (u : UpdateFields) (now : Nat) :
    lookupListing (update_listing_in_db s iid u now).1 iid =
      (lookupListing s iid).map (fun r => applyUpdates u r now) := by
  simp only [update_listing_in_db, lookupListing, List.find?_map, updFn_comp_key]
  cases hf : s.find? (fun r => r.item_id == iid) with
  | none => rfl
  | some a =>
    have ha := List.find?_some hf
    have hpos : ((a.item_id == iid) = true) := by simpa using ha
    show some (if a.item_id == iid then applyUpdates u a now else a) =
      some (applyUpdates u a now)
    rw [if_pos hpos]

/-- Rows under a different key are untouched by update_listing_in_db. -/
theorem lookup_update_other (s : Store) (iid iid2 : String) (u : UpdateFields)
    (now : Nat) (h : iid2 ≠ iid) :
    lookupListing (update_listing_in_db s iid u now).1 iid2 = lookupListing s iid2 := by
  simp only [update_listing_in_db, lookupListing, List.find?_map, updFn_comp_key]
  cases hf : s.find? (fun r => r.item_id == iid2) with
  | none => rfl
  | some a =>
    have ha : a.item_id = iid2 := by simpa using List.find?_some hf
    have hni : ¬((a.item_id == iid) = true) := by
      simp only [beq_iff_eq, ha]
      exact fun hh => h hh
    show some (if a.item_id == iid then applyUpdates u a now else a) = some a
    rw [if_neg hni]

/-- Presence of a key is invariant under update_listing_in_db. -/
theorem lookup_update_isSome (s : Store) (iid iid2 : String) (u : UpdateFields)
    (now : Nat) :
    (lookupListing (update_listing_in_db s iid u now).1 iid2).isSome =
      (lookupListing s iid2).isSome := by
  by_cases h : iid2 = iid
  · subst h
    rw [lookup_update_self]
    simp
  · rw [lookup_update_other s iid iid2 u now h]

/-- Frame property of the processing loop: items not listed in the batch
keep their stored row. -/
theorem process_foldl_frame (succ : String → Bool) (now : Nat) :
    ∀ (P : List Listing) (st : Store) (w : List (String × String)) (iid : String),
      (∀ r ∈ P, r.item_id ≠ iid) →
      lookupListing (P.foldl (processOneListing succ now) (st, w)).1 iid =
        lookupListing st iid := by
  intro P
  induction P with
  | nil => intro st w iid _; rfl
  | cons q Q ih =>
    intro st w iid h
    rw [List.foldl_cons]
    have hq : iid ≠ q.item_id := fun he => h q (List.mem_cons_self q Q) he.symm
    have htail : ∀ r ∈ Q, r.item_id ≠ iid := fun r hr => h r (List.mem_cons_of_mem q hr)
    by_cases hs : succ q.item_id = true
    · simp only [processOneListing, if_pos hs]
      rw [ih _ _ _ htail]
      exact lookup_update_other st q.item_id iid processedUpdate now hq
    · simp only [processOneListing, if_neg hs]
      rw [ih _ _ _ htail]
      exact lookup_update_other st q.item_id iid failedUpdate now hq

/-- The write trace of the processing loop is one status write per batch
row, in batch order. -/
theorem process_foldl_writes (succ : String → Bool) (now : Nat) :
    ∀ (P : List Listing) (st : Store) (w : List (String × String)),
      (P.foldl (processOneListing succ now) (st, w)).2 =
        w ++ P.map (fun r =>
          (r.item_id, if succ r.item_id then "processed" else "failed")) := by
  intro P
  induction P with
  | nil => intro st w; simp
  | cons q Q ih =>
    intro st w
    rw [List.foldl_cons]
    by_cases hs : succ q.item_id = true
    · simp only [processOneListing, if_pos hs]
      rw [ih]
      simp [hs]
    · simp only [processOneListing, if_neg hs]
      rw [ih]
      simp [hs]

/-- Terminal-state property of the processing loop: a batch row with a
distinct item_id present in the store ends with exactly the terminal field
triple selected by its make_listing_public outcome. -/
theorem process_foldl_terminal (succ : String → Bool) (now : Nat) :
    ∀ (P : List Listing) (st : Store) (w : List (String × String)) (r : Listing),
      (P.map (fun x => x.item_id)).Nodup → r ∈ P →
      (lookupListing st r.item_id).isSome = true →
      ∃ r2, lookupListing (P.foldl (processOneListing succ now) (st, w)).1 r.item_id
          = some r2 ∧
        r2.status = (if succ r.item_id then "processed" else "failed") ∧
        r2.is_public = (if succ r.item_id then true else false) ∧
        r2.is_visible = (if succ r.item_id then true else false) := by
  intro P
  induction P with
  | nil => intro st w r _ hr _; exact absurd hr (List.not_mem_nil r)
  | cons q Q ih =>
    intro st w r hnd hr hsome
    rw [List.foldl_cons]
    have hnd2 : q.item_id ∉ Q.map (fun x => x.item_id) ∧
        (Q.map (fun x => x.item_id)).Nodup := by
      rw [List.map_cons] at hnd
      exact List.nodup_cons.mp hnd
    rcases List.mem_cons.mp hr with he | hm
    · subst he
      have hQ : ∀ x ∈ Q, x.item_id ≠ r.item_id := by
        intro x hx heq
        exact hnd2.1 (List.mem_map.mpr ⟨x, hx, heq⟩)
      rw [process_foldl_frame succ now Q _ _ _ hQ]
      rcases Option.isSome_iff_exists.mp hsome with ⟨r0, hr0⟩
      by_cases hs : succ r.item_id = true
      · simp only [processOneListing, if_pos hs]
        rw [lookup_update_self, hr0]
        exact ⟨_, rfl, by simp [hs, applyUpdates, processedUpdate]⟩
      · simp only [processOneListing, if_neg hs]
        rw [lookup_update_self, hr0]
        exact ⟨_, rfl, by simp [hs, applyUpdates, failedUpdate]⟩
    · have hsome2 :
          (lookupListing (processOneListing succ now (st, w) q).1 r.item_id).isSome
            = true := by
        by_cases hs : succ q.item_id = true
        · simp only [processOneListing, if_pos hs]
          rw [lookup_update_isSome]
          exact hsome
        · simp only [processOneListing, if_neg hs]
          rw [lookup_update_isSome]
          exact hsome
      exact ih _ _ r hnd2.2 hm hsome2

/-- With distinct item ids, the write trace contains exactly one entry for
any batch member's key. -/
theorem map_pair_filter_count (key : String) (f : Listing → String) :
    ∀ P : List Listing, (P.map (fun x => x.item_id)).Nodup →
      (∃ r ∈ P, r.item_id = key) →
      ((P.map (fun x => (x.item_id, f x))).filter
        (fun wr => wr.1 == key)).length = 1 := by
  intro P
  induction P with
  | nil => intro _ h; rcases h with ⟨r, hr, _⟩; exact absurd hr (List.not_mem_nil r)
  | cons q Q ih =>
    intro hnd hex
    have hnd2 : q.item_id ∉ Q.map (fun x => x.item_id) ∧
        (Q.map (fun x => x.item_id)).Nodup := by
      rw [List.map_cons] at hnd
      exact List.nodup_cons.mp hnd
    rcases hex with ⟨r, hr, hk⟩
    rcases List.mem_cons.mp hr with he | hm
    · subst he
      have hq : (r.item_id == key) = true := by simp [hk]
      rw [List.map_cons, List.filter_cons]
      simp only [hq]
      have hrest : (Q.map (fun x => (x.item_id, f x))).filter
          (fun wr => wr.1 == key) = [] := by
        rw [List.filter_eq_nil_iff]
        intro a ha
        rcases List.mem_map.mp ha with ⟨x, hx, hax⟩
        subst hax
        simp only [beq_iff_eq]
        intro hxk
        exact hnd2.1 (List.mem_map.mpr ⟨x, hx, by rw [hxk, hk]⟩)
      simp [hrest]
    · have hq : (q.item_id == key) = false := by
        simp only [beq_eq_false_iff_ne, ne_eq]
        intro hqk
        exact hnd2.1 (List.mem_map.mpr ⟨r, hm, by rw [hk, hqk]⟩)
      rw [List.map_cons, List.filter_cons]
      simp only [hq]
      exact ih hnd2.2 ⟨r, hm, hk⟩

/-- C1: every listing entering processing (a row returned by
get_listings_from_db) ends the run with exactly one terminal status write:
its stored row becomes either processed with is_public and is_visible true,
or failed with both false; it is never left pending, and the write trace
holds exactly one status write for its item_id. Assumes the schema
uniqueness of item_id. -/
theorem c1_processing_terminal_status (s : Store) (succ : String → Bool) (now : Nat)
    (hnd : (s.map (fun r => r.item_id)).Nodup)
    (r : Listing) (hr : r ∈ get_listings_from_db s) :
    (∃ r2, lookupListing (process_listings s succ now).1 r.item_id = some r2 ∧
      ((r2.status = "processed" ∧ r2.is_public = true ∧ r2.is_visible = true) ∨
       (r2.status = "failed" ∧ r2.is_public = false ∧ r2.is_visible = false)) ∧
      r2.status ≠ "pending") ∧
    ((process_listings s succ now).2.filter
      (fun wr => wr.1 == r.item_id)).length = 1 := by
  have hperm : List.Perm (get_listings_from_db s) (s.filter pendingFilter) :=
    List.perm_insertionSort createdDesc (s.filter pendingFilter)
  have hsub : List.Sublist ((s.filter pendingFilter).map (fun x => x.item_id))
      (s.map (fun x => x.item_id)) := (List.filter_sublist s).map _
  have hndF : ((s.filter pendingFilter).map (fun x => x.item_id)).Nodup :=
    List.Nodup.sublist hsub hnd
  have hndP : ((get_listings_from_db s).map (fun x => x.item_id)).Nodup :=
    ((hperm.map (fun x => x.item_id)).nodup_iff).mpr hndF
  have hrs : r ∈ s := (List.mem_filter.mp (hperm.mem_iff.mp hr)).1
  have hsome : (lookupListing s r.item_id).isSome = true := by
    simp only [lookupListing, List.find?_isSome]
    exact ⟨r, hrs, by simp⟩
  constructor
  · rcases process_foldl_terminal succ now (get_listings_from_db s) s [] r
        hndP hr hsome with ⟨r2, h1, h2, h3, h4⟩
    refine ⟨r2, h1, ?_, ?_⟩
    · by_cases hs : succ r.item_id = true
      · exact Or.inl ⟨by simpa [hs] using h2, by simpa [hs] using h3,
          by simpa [hs] using h4⟩
      · exact Or.inr ⟨by simpa [hs] using h2, by simpa [hs] using h3,
          by simpa [hs] using h4⟩
    · by_cases hs : succ r.item_id = true
      · rw [h2, if_pos hs]; decide
      · rw [h2, if_neg hs]; decide
  · rw [process_listings, process_foldl_writes]
    rw [List.nil_append]
    exact map_pair_filter_count r.item_id _ (get_listings_from_db s) hndP ⟨r, hr, rfl⟩

/-- C1 witness: a concrete two-listing store where listing a succeeds and
listing b fails; listing b ends failed, not pending, with one write. -/
theorem c1_witness :
    ((([⟨"a", "u", "t", "p", "pending", false, false, 1, 1⟩,
        ⟨"b", "u", "t", "p", "pending", false, false, 2, 2⟩] : Store).map
          (fun x => x.item_id)).Nodup ∧
      (⟨"b", "u", "t", "p", "pending", false, false, 2, 2⟩ : Listing) ∈
        get_listings_from_db
          [⟨"a", "u", "t", "p", "pending", false, false, 1, 1⟩,
           ⟨"b", "u", "t", "p", "pending", false, false, 2, 2⟩]) ∧
    ((∃ r2, lookupListing
        (process_listings
          [⟨"a", "u", "t", "p", "pending", false, false, 1, 1⟩,
           ⟨"b", "u", "t", "p", "pending", false, false, 2, 2⟩]
          (fun iid => iid == "a") 9).1
        (⟨"b", "u", "t", "p", "pending", false, false, 2, 2⟩ : Listing).item_id
          = some r2 ∧
      ((r2.status = "processed" ∧ r2.is_public = true ∧ r2.is_visible = true) ∨
       (r2.status = "failed" ∧ r2.is_public = false ∧ r2.is_visible = false)) ∧
      r2.status ≠ "pending") ∧
    ((process_listings
        [⟨"a", "u", "t", "p", "pending", false, false, 1, 1⟩,
         ⟨"b", "u", "t", "p", "pending", false, false, 2, 2⟩]
        (fun iid => iid == "a") 9).2.filter
      (fun wr => wr.1 ==
        (⟨"b", "u", "t", "p", "pending", false, false, 2, 2⟩ : Listing).item_id)).length
      = 1) :=
  ⟨⟨by decide, by decide⟩,
    c1_processing_terminal_status
      [⟨"a", "u", "t", "p", "pending", false, false, 1, 1⟩,
       ⟨"b", "u", "t", "p", "pending", false, false, 2, 2⟩]
      (fun iid => iid == "a") 9 (by decide)
      ⟨"b", "u", "t", "p", "pending", false, false, 2, 2⟩ (by decide)⟩

/-- C7 counterexample. The claim states the status update fails with
NotFoundError when the item_id is absent. On the empty store with item x
absent, update_listing_in_db returns the unchanged store with result True
and update_listing_status returns the unchanged store, while the
specification-modelled updateStatus returns NotFoundError. -/
theorem c7_counterexample :
    update_listing_in_db [] "x" processedUpdate 5 = ([], true) ∧
    update_listing_status [] "x" "processed" 0 5 = [] ∧
    update_status_spec [] "x" processedUpdate 5 = Except.error StoreError.notFound :=
  ⟨rfl, rfl, rfl⟩

/-- C7, amended: when the item_id is absent the update affects no rows and
completes reporting success (no NotFoundError); when present, the matching
row receives exactly the supplied fields with updated_at refreshed,
created_at preserved, and rows under other keys untouched. -/
theorem c7_update_status_behaviour (s : Store) (iid : String) (u : UpdateFields)
    (now : Nat) :
    ((∀ r ∈ s, r.item_id ≠ iid) → update_listing_in_db s iid u now = (s, true)) ∧
    (update_listing_in_db s iid u now).2 = true ∧
    lookupListing (update_listing_in_db s iid u now).1 iid =
      (lookupListing s iid).map (fun r => applyUpdates u r now) ∧
    (∀ iid2 : String, iid2 ≠ iid →
      lookupListing (update_listing_in_db s iid u now).1 iid2 =
        lookupListing s iid2) ∧
    (∀ r : Listing, (applyUpdates u r now).created_at = r.created_at ∧
      (applyUpdates u r now).updated_at = now ∧
      (applyUpdates u r now).status = u.status.getD r.status) := by
  refine ⟨?_, rfl, lookup_update_self s iid u now,
    fun iid2 h2 => lookup_update_other s iid iid2 u now h2,
    fun r => ⟨rfl, rfl, rfl⟩⟩
  intro h
  simp only [update_listing_in_db, Prod.mk.injEq]
  refine ⟨?_, trivial⟩
  have hid : ∀ r ∈ s, (if r.item_id == iid then applyUpdates u r now else r) = r := by
    intro r hr
    rw [if_neg (by simp [h r hr])]
  rw [List.map_congr_left hid, List.map_id']

/-- C7 witness: updating an absent item x in a one-row store leaves the
store unchanged and reports success. -/
theorem c7_witness :
    update_listing_in_db [⟨"y", "u", "t", "p", "pending", false, false, 1, 1⟩]
        "x" processedUpdate 5 =
      ([⟨"y", "u", "t", "p", "pending", false, false, 1, 1⟩], true) :=
  (c7_update_status_behaviour
      [⟨"y", "u", "t", "p", "pending", false, false, 1, 1⟩]
      "x" processedUpdate 5).1 (by decide)

/-- C8 counterexample. The claim states the pending query returns exactly
the listings with status Pending. A store holding one failed non-public
listing: the query returns that listing although its status is failed. -/
theorem c8_counterexample :
    get_listings_from_db [⟨"f1", "u", "t", "p", "failed", false, false, 3, 3⟩] =
      [⟨"f1", "u", "t", "p", "failed", false, false, 3, 3⟩] ∧
    (⟨"f1", "u", "t", "p", "failed", false, false, 3, 3⟩ : Listing).status ≠
      "pending" :=
  ⟨by decide, by decide⟩

/-- C8, amended: get_listings_from_db returns exactly the listings whose
status is pending OR which are not public, ordered by created_at
descending; with two pending listings A (created at T1) and B (created at
T2 greater than T1) it returns [B, A]. -/
theorem c8_pending_query_contents_and_order :
    (∀ (s : Store) (r : Listing),
      r ∈ get_listings_from_db s ↔
        r ∈ s ∧ (r.status = "pending" ∨ r.is_public = false)) ∧
    (∀ s : Store, List.Sorted createdDesc (get_listings_from_db s)) ∧
    get_listings_from_db
        [⟨"A", "u", "t", "p", "pending", false, false, 1, 1⟩,
         ⟨"B", "u", "t", "p", "pending", false, false, 2, 2⟩] =
      [⟨"B", "u", "t", "p", "pending", false, false, 2, 2⟩,
       ⟨"A", "u", "t", "p", "pending", false, false, 1, 1⟩] := by
  refine ⟨?_, ?_, by decide⟩
  · intro s r
    rw [get_listings_from_db,
      (List.perm_insertionSort createdDesc (s.filter pendingFilter)).mem_iff,
      List.mem_filter]
    simp [pendingFilter, Bool.or_eq_true, beq_iff_eq, Bool.not_eq_true']
  · intro s
    exact List.sorted_insertionSort createdDesc (s.filter pendingFilter)

/-- C8 witness: the membership characterisation instantiated at the
failed non-public listing. -/
theorem c8_witness :
    (⟨"f1", "u", "t", "p", "failed", false, false, 3, 3⟩ : Listing) ∈
        get_listings_from_db
          [⟨"f1", "u", "t", "p", "failed", false, false, 3, 3⟩] ↔
      (⟨"f1", "u", "t", "p", "failed", false, false, 3, 3⟩ : Listing) ∈
          [(⟨"f1", "u", "t", "p", "failed", false, false, 3, 3⟩ : Listing)] ∧
        ((⟨"f1", "u", "t", "p", "failed", false, false, 3, 3⟩ : Listing).status =
            "pending" ∨
          (⟨"f1", "u", "t", "p", "failed", false, false, 3, 3⟩ : Listing).is_public =
            false) :=
  c8_pending_query_contents_and_order.1
    [⟨"f1", "u", "t", "p", "failed", false, false, 3, 3⟩]
    ⟨"f1", "u", "t", "p", "failed", false, false, 3, 3⟩

/-- After save_listing_to_ai_db, the stored row for the saved item_id is
exactly the freshly inserted replacement row. -/
theorem lookupAi_save (s : List AiListing) (iid u t c p aj : String)
    (conf : ℚ) (now : Nat) :
    lookupAi (save_listing_to_ai_db s iid u t c p aj conf now) iid =
      some ⟨iid, u, t, c, p, aj, "pending", conf, "auto", now, now⟩ := by
  simp only [save_listing_to_ai_db, lookupAi, List.find?_append]
  have h1 : (s.filter (fun r => !(r.item_id == iid))).find?
      (fun r => r.item_id == iid) = none := by
    rw [List.find?_eq_none]
    intro x hx
    have hp := (List.mem_filter.mp hx).2
    simp only [Bool.not_eq_eq_eq_not, Bool.not_true] at hp
    simp [hp]
  rw [h1]
  simp [Option.or]

/-- C4 counterexample. The claim states a repeated upsert merges the
supplied fields, refreshes updated_at and never overwrites created_at.
Upserting item x twice in main.py (titles a then b, times 1 then 2) leaves
the first row untouched: title stays a and updated_at stays 1; doing the
same in scanner.py resets created_at to 2, overwriting it. -/
theorem c4_counterexample :
    add_listing_to_db (add_listing_to_db [] "x" "u" "a" "p" 1) "x" "u" "b" "p" 2 =
      add_listing_to_db [] "x" "u" "a" "p" 1 ∧
    (add_listing_to_db (add_listing_to_db [] "x" "u" "a" "p" 1)
        "x" "u" "b" "p" 2).map (fun r => r.title) = ["a"] ∧
    (add_listing_to_db (add_listing_to_db [] "x" "u" "a" "p" 1)
        "x" "u" "b" "p" 2).map (fun r => r.updated_at) = [1] ∧
    (save_listing_to_ai_db
        (save_listing_to_ai_db [] "x" "u" "a" "c" "p" "aj" 0 1)
        "x" "u" "b" "c" "p" "aj" 0 2).map (fun r => r.created_at) = [2] :=
  ⟨by decide, by decide, by decide, rfl⟩

/-- C4, amended: in main.py, add_listing_to_db inserts a fresh pending row
when the item_id is unseen and otherwise leaves the table entirely
unchanged (no merge, no updated_at refresh); in scanner.py,
save_listing_to_ai_db replaces the existing row wholesale, resetting
status to pending and both timestamps to the current time. Neither variant
ever creates a duplicate row for the same item_id. -/
theorem c4_upsert_behaviour :
    (∀ (s : Store) (iid u t p : String) (now : Nat),
      ((∃ r ∈ s, r.item_id = iid) → add_listing_to_db s iid u t p now = s) ∧
      ((∀ r ∈ s, r.item_id ≠ iid) →
        add_listing_to_db s iid u t p now =
          s ++ [⟨iid, u, t, p, "pending", false, false, now, now⟩]) ∧
      ((s.map (fun r => r.item_id)).Nodup →
        ((add_listing_to_db s iid u t p now).map (fun r => r.item_id)).Nodup)) ∧
    (∀ (s2 : List AiListing) (iid u t c p aj : String) (conf : ℚ) (now : Nat),
      lookupAi (save_listing_to_ai_db s2 iid u t c p aj conf now) iid =
        some ⟨iid, u, t, c, p, aj, "pending", conf, "auto", now, now⟩ ∧
      ((s2.map (fun r => r.item_id)).Nodup →
        ((save_listing_to_ai_db s2 iid u t c p aj conf now).map
          (fun r => r.item_id)).Nodup)) := by
  constructor
  · intro s iid u t p now
    refine ⟨?_, ?_, ?_⟩
    · rintro ⟨r, hr, he⟩
      have hany : s.any (fun r => r.item_id == iid) = true :=
        List.any_eq_true.mpr ⟨r, hr, by simp [he]⟩
      simp [add_listing_to_db, hany]
    · intro h
      have hany : s.any (fun r => r.item_id == iid) = false := by
        rw [List.any_eq_false]
        intro r hr
        simp [h r hr]
      simp [add_listing_to_db, hany]
    · intro hn
      by_cases hany : s.any (fun r => r.item_id == iid) = true
      · simpa [add_listing_to_db, hany] using hn
      · rw [add_listing_to_db, if_neg hany, List.map_append]
        rw [List.nodup_append]
        refine ⟨hn, by simp, ?_⟩
        intro a ha hb
        rcases List.mem_map.mp ha with ⟨r, hr, hra⟩
        have hb2 : a = iid := by simpa using hb
        rw [Bool.not_eq_true, List.any_eq_false] at hany
        have hne := hany r hr
        simp only [beq_iff_eq] at hne
        exact hne (hra.trans hb2)
  · intro s2 iid u t c p aj conf now
    refine ⟨lookupAi_save s2 iid u t c p aj conf now, ?_⟩
    intro hn
    rw [save_listing_to_ai_db, List.map_append, List.nodup_append]
    have hsubf : List.Sublist
        ((s2.filter (fun r => !(r.item_id == iid))).map (fun r => r.item_id))
        (s2.map (fun r => r.item_id)) := (List.filter_sublist s2).map _
    refine ⟨List.Nodup.sublist hsubf hn, by simp, ?_⟩
    intro a ha hb
    rcases List.mem_map.mp ha with ⟨r, hr, hra⟩
    have hb2 : a = iid := by simpa using hb
    have hp := (List.mem_filter.mp hr).2
    simp only [Bool.not_eq_eq_eq_not, Bool.not_true, beq_eq_false_iff_ne, ne_eq]
      at hp
    exact hp (hra.trans hb2)

/-- C4 witness: inserting item x into the empty store appends the fresh
pending row. -/
theorem c4_witness :
    add_listing_to_db [] "x" "u" "t" "p" 7 =
      [] ++ [⟨"x", "u", "t", "p", "pending", false, false, 7, 7⟩] :=
  (c4_upsert_behaviour.1 [] "x" "u" "t" "p" 7).2.1
    (fun r hr => absurd hr (List.not_mem_nil r))
